import Mathlib

/-!
Verification of the TCAS dataset loader (`tcas_loader.py`).

The loader is embedded shallowly: the file system is an explicit finite map
from paths to file contents, Python exceptions become an `Except`-style error
result, and the mutable instance state of a `TCASDataset` object (its
annotation cache) is passed explicitly: every stateful method returns the
possibly updated dataset next to its result.

Python's `json.load` output is modelled by the `Json` inductive; the external
video decoder (`cv2.VideoCapture`) is modelled by the frames stored in a
video file's content, delivered in the decoder's native (BGR) channel order.

Naming note: the Python methods `load_annotation` and `get_frame_annotation`
are embedded as `load_anno` and `get_frame_anno`, and the `_annotation_cache`
field as `anno_cache`; everything else keeps its source name.
-/

set_option autoImplicit false
set_option linter.unnecessarySeqFocus false

namespace TCAS

/-- JSON values as produced by the JSON parser (`json.load`). -/
inductive Json where
  | null
  | bool (b : Bool)
  | num (n : Int)
  | str (s : String)
  | arr (elements : List Json)
  | obj (fields : List (String × Json))

/-- One pixel, three colour channels in order (c1, c2, c3). -/
structure Pixel where
  c1 : Nat
  c2 : Nat
  c3 : Nat
  deriving DecidableEq

/-- A decoded video frame: its pixels in row-major order. -/
abbrev Frame := List Pixel

/-- Channel-order conversion applied to every pixel, modelling
`cv2.cvtColor(frame, cv2.COLOR_BGR2RGB)` (line 102). -/
def cvtColor_BGR2RGB (frame : Frame) : Frame :=
  frame.map (fun p => ⟨p.c3, p.c2, p.c1⟩)

/-- Content of a file in the modelled file system: a text file is its list of
lines (as `readlines` delivers them, line terminators dropped since every use
strips them), a JSON file is its parsed value or the marker that its bytes are
not valid JSON, a video file is the frame sequence the decoder yields for it
in native (BGR) channel order. -/
inductive FileContent where
  | text (lines : List String)
  | json (value : Json)
  | malformed
  | video (frames : List Frame)

/-- Result of running the JSON parser on a file's content: only a well-formed
JSON file yields a value. -/
def FileContent.asJson : FileContent → Option Json
  | .json v => some v
  | _ => none

/-- Lines delivered by `readlines` on a file opened in text mode. -/
def FileContent.readLines : FileContent → List String
  | .text lines => lines
  | _ => []

/-- Frames pulled sequentially from `cv2.VideoCapture` until the first failed
read: a video file yields its stored frames; on any other content the first
read fails and no frames are collected (the code treats a failed read as
end-of-stream, lines 96-99). -/
def FileContent.decodedFrames : FileContent → List Frame
  | .video frames => frames
  | _ => []

/-- The file system, a finite map from paths (the component lists that
`os.path.join` concatenates) to file contents. -/
structure FileSystem where
  files : List (List String × FileContent)

/-- Existence check plus read: `os.path.exists` succeeds exactly on the paths
mapped here. -/
def FileSystem.lookup (fs : FileSystem) (path : List String) : Option FileContent :=
  fs.files.lookup path

/-- Error kinds raised by the loader, as Python exceptions:
FileNotFoundError, IndexError from list indexing, json.JSONDecodeError,
KeyError from `d[k]` on a missing key, and TypeError/AttributeError from
using a non-dict or non-list value where the code expects one. -/
inductive Err where
  | notFound (path : List String)
  | indexOutOfRange
  | parseError
  | keyError
  | typeError

/-- Python `s.startswith(pre)`: prefix test on the character sequence. -/
def pyStartsWith (s pre : String) : Bool :=
  pre.data.isPrefixOf s.data

/-- Python `s.strip()`: drop leading and trailing whitespace. -/
def pyStrip (s : String) : String :=
  ⟨((s.data.dropWhile Char.isWhitespace).reverse.dropWhile Char.isWhitespace).reverse⟩

/-- Python list index normalization: a negative index counts from the end. -/
def pyIdx (len : Nat) (idx : Int) : Int :=
  if idx < 0 then idx + len else idx

/-- Python list indexing `xs[idx]`: a normalized index outside `[0, len)`
raises IndexError. -/
def pyListGet {α : Type} (xs : List α) (idx : Int) : Except Err α :=
  if 0 ≤ pyIdx xs.length idx then
    match xs[(pyIdx xs.length idx).toNat]? with
    | some v => .ok v
    | none => .error .indexOutOfRange
  else
    .error .indexOutOfRange

/-- Python `d.get(key, default)` on a parsed JSON value: on a JSON object the
value stored at the key, or the default when absent; any other value has no
`get` attribute and raises. -/
def Json.pyGetD (j : Json) (key : String) (dflt : Json) : Except Err Json :=
  match j with
  | .obj fields => .ok ((fields.lookup key).getD dflt)
  | _ => .error .typeError

/-- Python `d.get(key)` with no default: None when the key is absent. -/
def Json.pyGet (j : Json) (key : String) : Except Err (Option Json) :=
  match j with
  | .obj fields => .ok (fields.lookup key)
  | _ => .error .typeError

/-- Python `d[key]`: KeyError when the key is absent, TypeError-like failure
when the value is not a dict. -/
def Json.pyIndex (j : Json) (key : String) : Except Err Json :=
  match j with
  | .obj fields =>
    match fields.lookup key with
    | some v => .ok v
    | none => .error .keyError
  | _ => .error .typeError

/-- Python `==` between a JSON value and an integer: true exactly on an equal
JSON number; values of any other type compare unequal, never error. -/
def Json.eqInt (j : Json) (n : Int) : Bool :=
  match j with
  | .num m => m == n
  | _ => false

/-- Python `==` between an optional JSON value and a string literal: true
exactly on a present, equal JSON string. -/
def Json.optEqStr (c : Option Json) (s : String) : Bool :=
  match c with
  | some (.str t) => t == s
  | _ => false

/-- Path of the split list file, `<root>/metadata/<split>_split.txt`
(line 37). -/
def splitPath (root_dir split : String) : List String :=
  [root_dir, "metadata", split ++ "_split.txt"]

/-- Video path resolution (lines 84-87): the `crash_` prefix of the identifier
selects the crash subdirectory, anything else the normal one. -/
def videoPath (root_dir video_id : String) : List String :=
  if pyStartsWith video_id "crash_" then
    [root_dir, "videos", "crash", video_id ++ ".mp4"]
  else
    [root_dir, "videos", "normal", video_id ++ ".mp4"]

/-- Annotation path resolution (lines 129-132): same prefix rule as
`videoPath`, under the annotations tree. -/
def annoPath (root_dir video_id : String) : List String :=
  if pyStartsWith video_id "crash_" then
    [root_dir, "annotations", "crash", video_id ++ ".json"]
  else
    [root_dir, "annotations", "normal", video_id ++ ".json"]

/-- Path of the statistics file, `<root>/metadata/statistics.json`
(line 189). -/
def statsPath (root_dir : String) : List String :=
  [root_dir, "metadata", "statistics.json"]

/-- State of a `TCASDataset` instance: the constructor-set fields plus the
annotation cache (`_annotation_cache` in the source). -/
structure TCASDataset where
  root_dir : String
  split : String
  transform : Option (Frame → Frame)
  video_ids : List String
  anno_cache : List (String × Json)

/-- `TCASDataset._load_split` (lines 35-43): read the split file and return
its stripped non-empty lines in order; FileNotFoundError when absent. -/
def load_split (fs : FileSystem) (root_dir split : String) : Except Err (List String) :=
  match fs.lookup (splitPath root_dir split) with
  | none => .error (.notFound (splitPath root_dir split))
  | some content => .ok ((content.readLines.map pyStrip).filter (fun l => l ≠ ""))

/-- `TCASDataset.__init__` (lines 24-33): store the constructor arguments,
eagerly load the split list, start with an empty annotation cache. -/
def TCASDataset.init (fs : FileSystem) (root_dir split : String)
    (transform : Option (Frame → Frame)) : Except Err TCASDataset :=
  match load_split fs root_dir split with
  | .error e => .error e
  | .ok video_ids => .ok ⟨root_dir, split, transform, video_ids, []⟩

/-- `TCASDataset.__len__` (lines 45-47). -/
def TCASDataset.len (ds : TCASDataset) : Nat :=
  ds.video_ids.length

/-- Optional per-frame transform, as in
`if self.transform: frame = self.transform(frame)` (lines 105-106). -/
def applyTransform (transform : Option (Frame → Frame)) (frame : Frame) : Frame :=
  match transform with
  | some t => t frame
  | none => frame

/-- `TCASDataset.load_video_frames` (lines 73-112): resolve the video path by
the `crash_` prefix, FileNotFoundError when the file is absent, otherwise pull
every frame from the decoder, convert it from BGR to RGB and apply the
optional transform. Reads only `root_dir` and `transform`; writes no instance
state, so it returns no dataset. -/
def TCASDataset.load_video_frames (ds : TCASDataset) (fs : FileSystem)
    (video_id : String) : Except Err (List Frame) :=
  match fs.lookup (videoPath ds.root_dir video_id) with
  | none => .error (.notFound (videoPath ds.root_dir video_id))
  | some content =>
    .ok (content.decodedFrames.map (fun frame =>
      applyTransform ds.transform (cvtColor_BGR2RGB frame)))

/-- `TCASDataset.load_annotation` (lines 114-143): a cache hit returns the
cached value without touching the file system; on a miss the path is resolved
by the `crash_` prefix, a missing file raises FileNotFoundError, a file whose
bytes are not valid JSON raises a parse error, and a parsed annotation is
stored in the cache and returned. An error leaves the state unchanged. -/
def TCASDataset.load_anno (ds : TCASDataset) (fs : FileSystem)
    (video_id : String) : Except Err Json × TCASDataset :=
  match ds.anno_cache.lookup video_id with
  | some cached => (.ok cached, ds)
  | none =>
    match fs.lookup (annoPath ds.root_dir video_id) with
    | none => (.error (.notFound (annoPath ds.root_dir video_id)), ds)
    | some content =>
      match content.asJson with
      | none => (.error .parseError, ds)
      | some value =>
        (.ok value, { ds with anno_cache := (video_id, value) :: ds.anno_cache })

/-- Record returned by `TCASDataset.__getitem__` (lines 67-71): the dict with
keys 'video_id', 'frames', 'annotation'. -/
structure GetItemResult where
  video_id : String
  frames : List Frame
  anno : Json

/-- `TCASDataset.__getitem__` (lines 49-71): index into `video_ids` with
Python list semantics, then load the frames and the annotation of the
resolved identifier. -/
def TCASDataset.getitem (ds : TCASDataset) (fs : FileSystem) (idx : Int) :
    Except Err GetItemResult × TCASDataset :=
  match pyListGet ds.video_ids idx with
  | .error e => (.error e, ds)
  | .ok video_id =>
    match ds.load_video_frames fs video_id with
    | .error e => (.error e, ds)
    | .ok frames =>
      match ds.load_anno fs video_id with
      | (.error e, ds') => (.error e, ds')
      | (.ok value, ds') => (.ok ⟨video_id, frames, value⟩, ds')

/-- Linear scan of `get_frame_annotation` (lines 158-162): first entry whose
'frame_id' field equals the requested id; an entry reached by the scan that is
not a dict with that key raises. -/
def scanFrames (entries : List Json) (frame_id : Int) : Except Err (Option Json) :=
  match entries with
  | [] => .ok none
  | frame_anno :: rest =>
    match frame_anno.pyIndex "frame_id" with
    | .error e => .error e
    | .ok v =>
      if v.eqInt frame_id then .ok (some frame_anno) else scanFrames rest frame_id

/-- `TCASDataset.get_frame_annotation` (lines 145-162): load the annotation
through the cache, then scan `annotation.get('frames', [])` for the first
entry matching the frame id; `none` models Python's None result. -/
def TCASDataset.get_frame_anno (ds : TCASDataset) (fs : FileSystem)
    (video_id : String) (frame_id : Int) : Except Err (Option Json) × TCASDataset :=
  match ds.load_anno fs video_id with
  | (.error e, ds') => (.error e, ds')
  | (.ok value, ds') =>
    match value.pyGetD "frames" (.arr []) with
    | .error e => (.error e, ds')
    | .ok (.arr entries) => (scanFrames entries frame_id, ds')
    | .ok _ => (.error .typeError, ds')

/-- `TCASDataset.is_crash_video` (lines 164-167):
`annotation.get('category') == 'crash'`. -/
def TCASDataset.is_crash_video (ds : TCASDataset) (fs : FileSystem)
    (video_id : String) : Except Err Bool × TCASDataset :=
  match ds.load_anno fs video_id with
  | (.error e, ds') => (.error e, ds')
  | (.ok value, ds') =>
    match value.pyGet "category" with
    | .error e => (.error e, ds')
    | .ok c => (.ok (Json.optEqStr c "crash"), ds')

/-- `TCASDataset.get_crash_frame` (lines 169-180): the 'crash_frame' field of
the annotation verbatim, `none` (Python None) when absent. -/
def TCASDataset.get_crash_frame (ds : TCASDataset) (fs : FileSystem)
    (video_id : String) : Except Err (Option Json) × TCASDataset :=
  match ds.load_anno fs video_id with
  | (.error e, ds') => (.error e, ds')
  | (.ok value, ds') =>
    match value.pyGet "crash_frame" with
    | .error e => (.error e, ds')
    | .ok v => (.ok v, ds')

/-- `TCASDataset.get_statistics` (lines 182-195): read and parse
`<root>/metadata/statistics.json`. Stateless. -/
def TCASDataset.get_statistics (ds : TCASDataset) (fs : FileSystem) :
    Except Err Json :=
  match fs.lookup (statsPath ds.root_dir) with
  | none => .error (.notFound (statsPath ds.root_dir))
  | some content =>
    match content.asJson with
    | none => .error .parseError
    | some stats => .ok stats

/-- `compute_time_to_accident` (lines 268-280):
`(crash_frame - current_frame) / fps`, with exact rational division standing
for Python float division. -/
def compute_time_to_accident (crash_frame current_frame fps : Int) : Rat :=
  ((crash_frame : Rat) - (current_frame : Rat)) / (fps : Rat)

namespace Alias

/-- Object-identity refinement of the annotation cache of lines 114-143:
Python dicts are mutable heap objects, so here the cache stores references
(addresses into a store of live objects) and `load_annotation` returns a
reference, exactly as `return self._annotation_cache[video_id]` returns the
cached dict itself. -/
structure State where
  store : List Json
  cache : List (String × Nat)

/-- `TCASDataset.load_annotation` with reference semantics: a cache hit
returns the address already stored in the cache; a miss allocates the parsed
annotation as a fresh object, caches that address and returns it — the caller
and the cache share the object. -/
def load_anno (st : State) (fs : FileSystem) (root_dir video_id : String) :
    Except Err Nat × State :=
  match st.cache.lookup video_id with
  | some addr => (.ok addr, st)
  | none =>
    match fs.lookup (annoPath root_dir video_id) with
    | none => (.error (.notFound (annoPath root_dir video_id)), st)
    | some content =>
      match content.asJson with
      | none => (.error .parseError, st)
      | some value =>
        (.ok st.store.length,
         ⟨st.store ++ [value], (video_id, st.store.length) :: st.cache⟩)

/-- In-place mutation of the dict object at an address: what a caller does
when it mutates a returned annotation. -/
def mutate (st : State) (addr : Nat) (value : Json) : State :=
  { st with store := st.store.set addr value }

/-- The value currently held by the object at an address. -/
def deref (st : State) (addr : Nat) : Option Json :=
  st.store[addr]?

end Alias

/-- Requirement that a dataset operation left every constructor-set field
unchanged and only added entries in front of the annotation cache. -/
def preservesCore (ds ds' : TCASDataset) : Prop :=
  ds'.root_dir = ds.root_dir ∧ ds'.split = ds.split ∧
  ds'.video_ids = ds.video_ids ∧ ds'.transform = ds.transform ∧
  ∃ newEntries, ds'.anno_cache = newEntries ++ ds.anno_cache

/-- Predicate form of the match test of the scan in `get_frame_annotation`:
the entry is a dict whose 'frame_id' value equals the requested id. -/
def isFrameMatch (frame_id : Int) (entry : Json) : Bool :=
  match entry with
  | .obj fields =>
    match fields.lookup "frame_id" with
    | some v => v.eqInt frame_id
    | none => false
  | _ => false

/-- Fixture: the annotation of a normal video, no 'crash_frame' field. -/
def normalAnno : Json := .obj [("category", .str "normal")]

/-- Fixture: a per-frame entry with frame_id 1 and a distinguishing tag. -/
def frameE1 : Json := .obj [("frame_id", .num 1), ("tag", .str "a")]

/-- Fixture: a per-frame entry with frame_id 2. -/
def frameE2 : Json := .obj [("frame_id", .num 2)]

/-- Fixture: a second per-frame entry with frame_id 1, a later duplicate. -/
def frameE3 : Json := .obj [("frame_id", .num 1), ("tag", .str "b")]

/-- Fixture: the annotation of a crash video, with a 'crash_frame' field and
a per-frame list holding a duplicated frame_id. -/
def crashAnno : Json :=
  .obj [("category", .str "crash"), ("crash_frame", .num 42),
        ("frames", .arr [frameE1, frameE2, frameE3])]

/-- Fixture: one frame as the decoder delivers it (BGR channel order). -/
def exFrame : Frame := [⟨1, 2, 3⟩]

/-- Fixture: the same frame after conversion to RGB channel order. -/
def exFrameRGB : Frame := [⟨3, 2, 1⟩]

/-- Fixture: a file system holding a train split of two identifiers with
their videos and annotations, plus one malformed annotation file. -/
def exFS : FileSystem :=
  ⟨[(["R", "metadata", "train_split.txt"], .text ["normal_001", "crash_001"]),
    (["R", "videos", "normal", "normal_001.mp4"], .video [exFrame]),
    (["R", "videos", "crash", "crash_001.mp4"], .video []),
    (["R", "annotations", "normal", "normal_001.json"], .json normalAnno),
    (["R", "annotations", "crash", "crash_001.json"], .json crashAnno),
    (["R", "annotations", "normal", "bad_001.json"], .malformed)]⟩

/-- Fixture: the dataset the constructor builds from `exFS` for split
'train'. -/
def exDS : TCASDataset := ⟨"R", "train", none, ["normal_001", "crash_001"], []⟩

/-- Fixture: `exDS` after the annotation of "normal_001" has been cached. -/
def exDS1 : TCASDataset :=
  ⟨"R", "train", none, ["normal_001", "crash_001"], [("normal_001", normalAnno)]⟩

/-- Fixture: `exDS` after the annotation of "crash_001" has been cached. -/
def exDSc : TCASDataset :=
  ⟨"R", "train", none, ["normal_001", "crash_001"], [("crash_001", crashAnno)]⟩

/-- Fixture: the record that indexed retrieval returns at position 0. -/
def exResult : GetItemResult := ⟨"normal_001", [exFrameRGB], normalAnno⟩

/-- Fixture: the empty heap state of the object-identity model. -/
def exSt0 : Alias.State := ⟨[], []⟩

/-- Fixture: the heap state after loading the annotation of "normal_001" in
the object-identity model: one live object, cached by reference. -/
def exSt1 : Alias.State := ⟨[normalAnno], [("normal_001", 0)]⟩

theorem lookup_forall {β : Type} (P : β → Prop) (l : List (String × β))
    (hall : ∀ p ∈ l, P p.2) (k : String) (v : β) (h : l.lookup k = some v) :
    P v := by
  induction l with
  | nil => simp [List.lookup] at h
  | cons p rest ih =>
    obtain ⟨k', v'⟩ := p
    simp only [List.lookup] at h
    split at h
    · cases h
      exact hall ⟨k', v⟩ (by simp)
    · exact ih (fun q hq => hall q (by simp [hq])) h

theorem getElem?_set_self_of_lt {α : Type} (xs : List α) (i : Nat) (a : α)
    (h : i < xs.length) : (xs.set i a)[i]? = some a := by
  induction xs generalizing i with
  | nil => simp at h
  | cons x rest ih =>
    cases i with
    | zero => simp
    | succ n => simpa using ih n (by simpa using h)

theorem pyListGet_err_val {α : Type} (xs : List α) (idx : Int) (e : Err)
    (h : pyListGet xs idx = .error e) : e = .indexOutOfRange := by
  unfold pyListGet at h
  split at h
  · split at h
    · exact Except.noConfusion h
    · cases h; rfl
  · cases h; rfl

theorem pyListGet_err_iff {α : Type} (xs : List α) (idx : Int) :
    pyListGet xs idx = Except.error Err.indexOutOfRange ↔
      idx < -(xs.length : Int) ∨ (xs.length : Int) ≤ idx := by
  constructor
  · intro h
    unfold pyListGet at h
    split at h
    · rename_i h0
      split at h
      · exact Except.noConfusion h
      · rename_i hnone
        rw [List.getElem?_eq_none_iff] at hnone
        unfold pyIdx at h0 hnone
        by_cases hn : idx < 0 <;> (simp [hn] at h0 hnone; omega)
    · rename_i h0
      unfold pyIdx at h0
      by_cases hn : idx < 0 <;> simp [hn] at h0 <;> omega
  · intro h
    unfold pyListGet
    split
    · rename_i h0
      have hnone : xs[(pyIdx xs.length idx).toNat]? = none := by
        rw [List.getElem?_eq_none_iff]
        unfold pyIdx at h0 ⊢
        by_cases hn : idx < 0 <;> (simp [hn] at h0 ⊢; omega)
      rw [hnone]
    · rfl

theorem pyListGet_ok_elem {α : Type} (xs : List α) (idx : Int) (v : α)
    (h0 : 0 ≤ idx) (h : pyListGet xs idx = .ok v) : xs[idx.toNat]? = some v := by
  unfold pyListGet pyIdx at h
  rw [if_neg (not_lt.mpr h0), if_pos h0] at h
  split at h
  · rename_i w hw
    cases h
    exact hw
  · exact Except.noConfusion h

theorem preservesCore_refl (ds : TCASDataset) : preservesCore ds ds :=
  ⟨rfl, rfl, rfl, rfl, [], rfl⟩

theorem load_anno_preserves (ds : TCASDataset) (fs : FileSystem) (vid : String) :
    preservesCore ds (ds.load_anno fs vid).2 := by
  cases hc : ds.anno_cache.lookup vid with
  | some cached =>
    simp only [TCASDataset.load_anno, hc]
    exact preservesCore_refl ds
  | none =>
    cases hf : fs.lookup (annoPath ds.root_dir vid) with
    | none =>
      simp only [TCASDataset.load_anno, hc, hf]
      exact preservesCore_refl ds
    | some content =>
      cases ha : content.asJson with
      | none =>
        simp only [TCASDataset.load_anno, hc, hf, ha]
        exact preservesCore_refl ds
      | some value =>
        simp only [TCASDataset.load_anno, hc, hf, ha]
        exact ⟨rfl, rfl, rfl, rfl, [(vid, value)], rfl⟩

theorem load_anno_ok_cached (ds : TCASDataset) (fs : FileSystem) (vid : String)
    (a : Json) (ds' : TCASDataset) (h : ds.load_anno fs vid = (.ok a, ds')) :
    ds'.anno_cache.lookup vid = some a := by
  cases hc : ds.anno_cache.lookup vid with
  | some cached =>
    simp only [TCASDataset.load_anno, hc, Prod.mk.injEq] at h
    obtain ⟨h1, h2⟩ := h
    cases h1
    rw [← h2]
    exact hc
  | none =>
    cases hf : fs.lookup (annoPath ds.root_dir vid) with
    | none => simp [TCASDataset.load_anno, hc, hf] at h
    | some content =>
      cases ha : content.asJson with
      | none => simp [TCASDataset.load_anno, hc, hf, ha] at h
      | some value =>
        simp only [TCASDataset.load_anno, hc, hf, ha, Prod.mk.injEq] at h
        obtain ⟨h1, h2⟩ := h
        cases h1
        rw [← h2]
        simp [List.lookup]

theorem load_video_frames_congr (ds ds' : TCASDataset) (fs : FileSystem)
    (vid : String) (h1 : ds'.root_dir = ds.root_dir)
    (h2 : ds'.transform = ds.transform) :
    ds'.load_video_frames fs vid = ds.load_video_frames fs vid := by
  unfold TCASDataset.load_video_frames
  rw [h1, h2]

theorem load_video_frames_err_shape (ds : TCASDataset) (fs : FileSystem)
    (vid : String) (e : Err) (h : ds.load_video_frames fs vid = .error e) :
    e = .notFound (videoPath ds.root_dir vid) := by
  cases hf : fs.lookup (videoPath ds.root_dir vid) with
  | none =>
    simp only [TCASDataset.load_video_frames, hf, Except.error.injEq] at h
    exact h.symm
  | some content => simp [TCASDataset.load_video_frames, hf] at h

theorem load_anno_err_shape (ds : TCASDataset) (fs : FileSystem) (vid : String)
    (e : Err) (ds' : TCASDataset) (h : ds.load_anno fs vid = (.error e, ds')) :
    e = .notFound (annoPath ds.root_dir vid) ∨ e = .parseError := by
  cases hc : ds.anno_cache.lookup vid with
  | some cached => simp [TCASDataset.load_anno, hc] at h
  | none =>
    cases hf : fs.lookup (annoPath ds.root_dir vid) with
    | none =>
      simp only [TCASDataset.load_anno, hc, hf, Prod.mk.injEq,
        Except.error.injEq] at h
      exact Or.inl h.1.symm
    | some content =>
      cases ha : content.asJson with
      | none =>
        simp only [TCASDataset.load_anno, hc, hf, ha, Prod.mk.injEq,
          Except.error.injEq] at h
        exact Or.inr h.1.symm
      | some value => simp [TCASDataset.load_anno, hc, hf, ha] at h

theorem alias_model_agrees_on_empty_cache (root s : String)
    (t : Option (Frame → Frame)) (vids : List String) (fs : FileSystem)
    (vid : String) :
    ((⟨root, s, t, vids, []⟩ : TCASDataset).load_anno fs vid).1
      = (Alias.load_anno ⟨[], []⟩ fs root vid).1.map
          (fun addr =>
            (Alias.load_anno ⟨[], []⟩ fs root vid).2.store.getD addr Json.null) := by
  cases hf : fs.lookup (annoPath root vid) with
  | none => simp [TCASDataset.load_anno, Alias.load_anno, List.lookup, hf, Except.map]
  | some content =>
    cases ha : content.asJson with
    | none => simp [TCASDataset.load_anno, Alias.load_anno, List.lookup, hf, ha, Except.map]
    | some value => simp [TCASDataset.load_anno, Alias.load_anno, List.lookup, hf, ha, Except.map]

theorem getitem_no_index_err_of_ok (ds : TCASDataset) (fs : FileSystem)
    (idx : Int) (vid : String) (h : pyListGet ds.video_ids idx = .ok vid) :
    (ds.getitem fs idx).1 ≠ .error .indexOutOfRange := by
  unfold TCASDataset.getitem
  rw [h]
  cases hv : ds.load_video_frames fs vid with
  | error e2 =>
    have hs := load_video_frames_err_shape ds fs vid e2 hv
    subst hs
    simp [hv]
  | ok frames =>
    cases hl : ds.load_anno fs vid with
    | mk res ds1 =>
      cases res with
      | error e3 =>
        have hs := load_anno_err_shape ds fs vid e3 ds1 hl
        rcases hs with hs | hs <;> subst hs <;> simp [hv, hl]
      | ok value => simp [hv, hl]

/-- C1 counterexample: on a Dataset Index constructed from a fixture file
system with two identifiers, indexed retrieval at -1 does not fail with
IndexOutOfRange; following Python list semantics it succeeds and returns the
record of the last identifier. -/
theorem getitem_neg_one_ok :
    TCASDataset.init exFS "R" "train" none = .ok exDS ∧
    exDS.len = 2 ∧
    (exDS.getitem exFS (-1)).1 = .ok ⟨"crash_001", [], crashAnno⟩ :=
  ⟨rfl, rfl, rfl⟩

/-- C1 (amended): indexed retrieval fails with IndexOutOfRange exactly when
the index is below -size or at least size; in particular get(size) always
fails, while get(-1) fails only on an empty split, since a negative index in
[-size, 0) wraps around to the end of the identifier list. -/
theorem getitem_index_error_iff (ds : TCASDataset) (fs : FileSystem) (idx : Int) :
    (ds.getitem fs idx).1 = .error .indexOutOfRange ↔
      idx < -(ds.video_ids.length : Int) ∨ (ds.video_ids.length : Int) ≤ idx := by
  rw [← pyListGet_err_iff ds.video_ids idx]
  cases hp : pyListGet ds.video_ids idx with
  | error e =>
    have he := pyListGet_err_val _ _ _ hp
    subst he
    constructor
    · intro _
      rfl
    · intro _
      simp [TCASDataset.getitem, hp]
  | ok vid =>
    constructor
    · intro hcontra
      exact absurd hcontra (getitem_no_index_err_of_ok ds fs idx vid hp)
    · intro hcontra
      exact Except.noConfusion hcontra

/-- C2 counterexample: in the object-identity model of the annotation cache,
loading the annotation of "normal_001", mutating the returned object, and
loading again shows the mutation inside the cache: the second call returns
the very same object, whose content is now the mutated value, not the
original annotation. -/
theorem load_anno_alias_mutation_visible :
    Alias.load_anno exSt0 exFS "R" "normal_001" = (.ok 0, exSt1) ∧
    Alias.deref exSt1 0 = some normalAnno ∧
    Alias.load_anno (Alias.mutate exSt1 0 (Json.str "mutated")) exFS "R" "normal_001"
      = (.ok 0, Alias.mutate exSt1 0 (Json.str "mutated")) ∧
    Alias.deref (Alias.mutate exSt1 0 (Json.str "mutated")) 0
      = some (Json.str "mutated") ∧
    Json.str "mutated" ≠ normalAnno :=
  ⟨rfl, rfl, rfl, rfl, fun hcontra => Json.noConfusion hcontra⟩

/-- C2 (amended): the Annotation object that load_annotation returns is the
cache's own object, not an independent copy: on any well-formed state, after
a successful load of an identifier, mutating the returned object is mutating
the cached one — a subsequent load_annotation call for the same identifier
returns the same object, which now holds the mutated content. -/
theorem load_anno_returns_cached_object (st : Alias.State) (fs : FileSystem)
    (root_dir vid : String) (addr : Nat) (st' : Alias.State) (j : Json)
    (hwf : ∀ p ∈ st.cache, p.2 < st.store.length)
    (h : Alias.load_anno st fs root_dir vid = (.ok addr, st')) :
    addr < st'.store.length ∧
    Alias.load_anno (Alias.mutate st' addr j) fs root_dir vid
      = (.ok addr, Alias.mutate st' addr j) ∧
    Alias.deref (Alias.mutate st' addr j) addr = some j := by
  cases hc : st.cache.lookup vid with
  | some a0 =>
    simp only [Alias.load_anno, hc, Prod.mk.injEq, Except.ok.injEq] at h
    obtain ⟨h1, h2⟩ := h
    subst h2
    rw [h1] at hc
    have hlt : addr < st.store.length :=
      lookup_forall (fun n => n < st.store.length) st.cache hwf vid addr hc
    refine ⟨hlt, ?_, ?_⟩
    · simp only [Alias.load_anno, Alias.mutate, hc]
    · exact getElem?_set_self_of_lt _ _ _ hlt
  | none =>
    cases hf : fs.lookup (annoPath root_dir vid) with
    | none => simp [Alias.load_anno, hc, hf] at h
    | some content =>
      cases ha : content.asJson with
      | none => simp [Alias.load_anno, hc, hf, ha] at h
      | some value =>
        simp only [Alias.load_anno, hc, hf, ha, Prod.mk.injEq, Except.ok.injEq] at h
        obtain ⟨h1, h2⟩ := h
        subst h1
        subst h2
        refine ⟨by simp, ?_, ?_⟩
        · simp [Alias.load_anno, Alias.mutate, List.lookup]
        · exact getElem?_set_self_of_lt _ _ _ (by simp)

/-- C2 witness: the amended theorem applied to the empty state and the
fixture file system, mutating the returned object to a string marker. -/
theorem load_anno_returns_cached_object_witness :
    (∀ p ∈ exSt0.cache, p.2 < exSt0.store.length) ∧
    Alias.load_anno exSt0 exFS "R" "normal_001" = (.ok 0, exSt1) ∧
    (0 < exSt1.store.length ∧
     Alias.load_anno (Alias.mutate exSt1 0 (Json.num 7)) exFS "R" "normal_001"
       = (.ok 0, Alias.mutate exSt1 0 (Json.num 7)) ∧
     Alias.deref (Alias.mutate exSt1 0 (Json.num 7)) 0 = some (Json.num 7)) :=
  ⟨by simp [exSt0], rfl,
   load_anno_returns_cached_object exSt0 exFS "R" "normal_001" 0 exSt1
     (Json.num 7) (by simp [exSt0]) rfl⟩

/-- C3: path resolution is determined solely by the crash-marker prefix and
is the same rule for video and annotation loading: a crash_-prefixed
identifier resolves to the crash subdirectories, any other identifier to the
normal ones; and both loaders fail with NotFound at exactly the resolved
path when that path is absent from the file system. -/
theorem path_resolution_by_marker (ds : TCASDataset) (fs : FileSystem)
    (root_dir vid : String) :
    (pyStartsWith vid "crash_" = true →
      videoPath root_dir vid = [root_dir, "videos", "crash", vid ++ ".mp4"] ∧
      annoPath root_dir vid = [root_dir, "annotations", "crash", vid ++ ".json"]) ∧
    (pyStartsWith vid "crash_" = false →
      videoPath root_dir vid = [root_dir, "videos", "normal", vid ++ ".mp4"] ∧
      annoPath root_dir vid = [root_dir, "annotations", "normal", vid ++ ".json"]) ∧
    (fs.lookup (videoPath ds.root_dir vid) = none →
      ds.load_video_frames fs vid = .error (.notFound (videoPath ds.root_dir vid))) ∧
    (ds.anno_cache.lookup vid = none →
      fs.lookup (annoPath ds.root_dir vid) = none →
      ds.load_anno fs vid = (.error (.notFound (annoPath ds.root_dir vid)), ds)) := by
  refine ⟨?_, ?_, ?_, ?_⟩
  · intro hcr
    simp [videoPath, annoPath, hcr]
  · intro hcr
    simp [videoPath, annoPath, hcr]
  · intro hnone
    simp [TCASDataset.load_video_frames, hnone]
  · intro hctx hnone
    simp [TCASDataset.load_anno, hctx, hnone]

/-- C3 witness: the resolution rule applied to "crash_001", "normal_001" and
to a missing video and a missing annotation file. -/
theorem path_resolution_by_marker_witness :
    pyStartsWith "crash_001" "crash_" = true ∧
    (videoPath "R" "crash_001" = ["R", "videos", "crash", "crash_001.mp4"] ∧
     annoPath "R" "crash_001" = ["R", "annotations", "crash", "crash_001.json"]) ∧
    pyStartsWith "normal_001" "crash_" = false ∧
    (videoPath "R" "normal_001" = ["R", "videos", "normal", "normal_001.mp4"] ∧
     annoPath "R" "normal_001" = ["R", "annotations", "normal", "normal_001.json"]) ∧
    exFS.lookup (videoPath "R" "ghost_001") = none ∧
    exDS.load_video_frames exFS "ghost_001"
      = .error (.notFound (videoPath "R" "ghost_001")) ∧
    exDS.anno_cache.lookup "ghost_001" = none ∧
    exFS.lookup (annoPath "R" "ghost_001") = none ∧
    exDS.load_anno exFS "ghost_001"
      = (.error (.notFound (annoPath "R" "ghost_001")), exDS) :=
  ⟨rfl,
   (path_resolution_by_marker exDS exFS "R" "crash_001").1 rfl,
   rfl,
   (path_resolution_by_marker exDS exFS "R" "normal_001").2.1 rfl,
   rfl,
   (path_resolution_by_marker exDS exFS "R" "ghost_001").2.2.1 rfl,
   rfl,
   rfl,
   (path_resolution_by_marker exDS exFS "R" "ghost_001").2.2.2 rfl rfl⟩

/-- C4: after a successful load_annotation for an identifier, a second call
for the same identifier returns the same content and the unchanged state,
and does so against any file system whatsoever — in particular an empty one:
the cache hit performs no file access at all. -/
theorem load_anno_second_call_cached (ds : TCASDataset) (fs fs2 : FileSystem)
    (vid : String) (a : Json) (ds' : TCASDataset)
    (h : ds.load_anno fs vid = (.ok a, ds')) :
    ds'.load_anno fs2 vid = (.ok a, ds') := by
  have hc := load_anno_ok_cached ds fs vid a ds' h
  simp only [TCASDataset.load_anno, hc]

/-- C4 witness: loading "normal_001" against the fixture file system, then
again against an empty file system, returns the same annotation. -/
theorem load_anno_second_call_cached_witness :
    exDS.load_anno exFS "normal_001" = (.ok normalAnno, exDS1) ∧
    exDS1.load_anno ⟨[]⟩ "normal_001" = (.ok normalAnno, exDS1) :=
  ⟨rfl, load_anno_second_call_cached exDS exFS ⟨[]⟩ "normal_001" normalAnno exDS1 rfl⟩

/-- C5: on a cache miss, load_annotation fails with NotFound when the
resolved annotation file is absent and with ParseError when its content is
malformed JSON, leaving the dataset (hence the cache) unchanged in both
failure cases; on success the parsed annotation is returned and stored in
the cache keyed by the identifier. -/
theorem load_anno_miss_spec (ds : TCASDataset) (fs : FileSystem) (vid : String)
    (h : ds.anno_cache.lookup vid = none) :
    (fs.lookup (annoPath ds.root_dir vid) = none →
      ds.load_anno fs vid = (.error (.notFound (annoPath ds.root_dir vid)), ds)) ∧
    (∀ content : FileContent, fs.lookup (annoPath ds.root_dir vid) = some content →
      content.asJson = none →
      ds.load_anno fs vid = (.error .parseError, ds)) ∧
    (∀ (content : FileContent) (value : Json),
      fs.lookup (annoPath ds.root_dir vid) = some content →
      content.asJson = some value →
      ds.load_anno fs vid =
        (.ok value, { ds with anno_cache := (vid, value) :: ds.anno_cache })) := by
  refine ⟨?_, ?_, ?_⟩
  · intro hf
    simp [TCASDataset.load_anno, h, hf]
  · intro c hf ha
    simp [TCASDataset.load_anno, h, hf, ha]
  · intro c v hf ha
    simp [TCASDataset.load_anno, h, hf, ha]

/-- C5 witness: the malformed fixture file "bad_001.json" makes the loader
fail with ParseError and leaves the dataset unchanged. -/
theorem load_anno_miss_spec_witness :
    exDS.anno_cache.lookup "bad_001" = none ∧
    exFS.lookup (annoPath "R" "bad_001") = some .malformed ∧
    FileContent.malformed.asJson = none ∧
    exDS.load_anno exFS "bad_001" = (.error .parseError, exDS) :=
  ⟨rfl, rfl, rfl,
   (load_anno_miss_spec exDS exFS "bad_001" rfl).2.1 .malformed rfl rfl⟩

/-- C6: for a valid index, a successful indexed retrieval returns the record
of the identifier at that position of the split list, paired with exactly the
frame sequence and annotation that loading yields for that identifier, and
an immediately repeated retrieval at the same index returns the very same
record and state again. -/
theorem getitem_valid_index_spec (ds : TCASDataset) (fs : FileSystem)
    (idx : Int) (r : GetItemResult) (ds' : TCASDataset)
    (h0 : 0 ≤ idx) (_h1 : idx < (ds.video_ids.length : Int))
    (h : ds.getitem fs idx = (.ok r, ds')) :
    ds.video_ids[idx.toNat]? = some r.video_id ∧
    ds.load_video_frames fs r.video_id = .ok r.frames ∧
    (ds.load_anno fs r.video_id).1 = .ok r.anno ∧
    ds'.getitem fs idx = (.ok r, ds') := by
  cases hp : pyListGet ds.video_ids idx with
  | error e => simp [TCASDataset.getitem, hp] at h
  | ok vid =>
    cases hv : ds.load_video_frames fs vid with
    | error e2 => simp [TCASDataset.getitem, hp, hv] at h
    | ok frames =>
      cases hl : ds.load_anno fs vid with
      | mk res ds1 =>
        cases res with
        | error e3 => simp [TCASDataset.getitem, hp, hv, hl] at h
        | ok value =>
          simp only [TCASDataset.getitem, hp, hv, hl, Prod.mk.injEq,
            Except.ok.injEq] at h
          obtain ⟨h2, h3⟩ := h
          subst h2
          subst h3
          refine ⟨pyListGet_ok_elem _ _ _ h0 hp, hv, by rw [hl], ?_⟩
          have hpres := load_anno_preserves ds fs vid
          unfold preservesCore at hpres
          simp only [hl] at hpres
          obtain ⟨hr, hs, hvids, ht, -⟩ := hpres
          have hcached := load_anno_ok_cached ds fs vid value ds1 hl
          have hlv : ds1.load_video_frames fs vid = Except.ok frames := by
            rw [load_video_frames_congr ds ds1 fs vid hr ht]
            exact hv
          unfold TCASDataset.getitem
          rw [hvids]
          simp only [hp, hlv, TCASDataset.load_anno, hcached]

/-- C6 witness: retrieval at index 0 of the fixture dataset returns the
record of "normal_001" with its decoded frame and annotation, and a repeated
retrieval returns the same record. -/
theorem getitem_valid_index_spec_witness :
    (0 : Int) ≤ 0 ∧ (0 : Int) < (exDS.video_ids.length : Int) ∧
    exDS.getitem exFS 0 = (.ok exResult, exDS1) ∧
    (exDS.video_ids[(0 : Int).toNat]? = some exResult.video_id ∧
     exDS.load_video_frames exFS exResult.video_id = .ok exResult.frames ∧
     (exDS.load_anno exFS exResult.video_id).1 = .ok exResult.anno ∧
     exDS1.getitem exFS 0 = (.ok exResult, exDS1)) :=
  ⟨by norm_num, by norm_num [exDS], rfl,
   getitem_valid_index_spec exDS exFS 0 exResult exDS1 (by norm_num)
     (by norm_num [exDS]) rfl⟩

theorem scanFrames_eq_find (entries : List Json) (fid : Int)
    (hwf : ∀ e ∈ entries, ∃ v, e.pyIndex "frame_id" = .ok v) :
    scanFrames entries fid = .ok (entries.find? (isFrameMatch fid)) := by
  induction entries with
  | nil => simp [scanFrames]
  | cons e rest ih =>
    obtain ⟨v, hv⟩ := hwf e (by simp)
    have hmatch : isFrameMatch fid e = v.eqInt fid := by
      cases e with
      | obj fields =>
        simp only [Json.pyIndex] at hv
        cases hl : fields.lookup "frame_id" with
        | some w =>
          rw [hl] at hv
          simp only [Except.ok.injEq] at hv
          subst hv
          simp [isFrameMatch, hl]
        | none => rw [hl] at hv; exact Except.noConfusion hv
      | null => exact Except.noConfusion hv
      | bool b => exact Except.noConfusion hv
      | num n => exact Except.noConfusion hv
      | str s => exact Except.noConfusion hv
      | arr elements => exact Except.noConfusion hv
    have hrest := ih (fun q hq => hwf q (by simp [hq]))
    by_cases hm : v.eqInt fid = true
    · simp [scanFrames, hv, hm, List.find?_cons, hmatch]
    · have hm' : v.eqInt fid = false := by simpa using hm
      simp [scanFrames, hv, hm', List.find?_cons, hmatch, hrest]

/-- C7: when the annotation of an identifier loads successfully and its
per-frame list is well-formed (each entry a dict carrying a 'frame_id'),
the per-frame lookup returns exactly the first entry of the stored order
whose frame_id equals the requested one — the not-found sentinel, never an
error, when no entry matches, and the earliest entry when several share the
requested frame_id. -/
theorem get_frame_anno_first_match (ds : TCASDataset) (fs : FileSystem)
    (vid : String) (fid : Int) (a : Json) (ds' : TCASDataset)
    (entries : List Json)
    (h : ds.load_anno fs vid = (.ok a, ds'))
    (hfr : a.pyGetD "frames" (.arr []) = .ok (.arr entries))
    (hwf : ∀ e ∈ entries, ∃ v, e.pyIndex "frame_id" = .ok v) :
    ds.get_frame_anno fs vid fid
      = (.ok (entries.find? (isFrameMatch fid)), ds') := by
  simp only [TCASDataset.get_frame_anno, h, hfr]
  rw [scanFrames_eq_find entries fid hwf]

/-- C7 witness: in the crash fixture the per-frame list holds two entries
with frame_id 1; lookup of 1 returns the first of them, lookup of 99 returns
the sentinel. The sentinel case is evaluated directly on the fixture. -/
theorem get_frame_anno_first_match_witness :
    exDS.load_anno exFS "crash_001" = (.ok crashAnno, exDSc) ∧
    crashAnno.pyGetD "frames" (.arr [])
      = .ok (.arr [frameE1, frameE2, frameE3]) ∧
    (frameE1.pyIndex "frame_id" = .ok (.num 1) ∧
     frameE2.pyIndex "frame_id" = .ok (.num 2) ∧
     frameE3.pyIndex "frame_id" = .ok (.num 1)) ∧
    exDS.get_frame_anno exFS "crash_001" 1 = (.ok (some frameE1), exDSc) ∧
    exDS.get_frame_anno exFS "crash_001" 99 = (.ok none, exDSc) :=
  ⟨rfl, rfl, ⟨rfl, rfl, rfl⟩,
   (get_frame_anno_first_match exDS exFS "crash_001" 1 crashAnno exDSc
      [frameE1, frameE2, frameE3] rfl rfl (by
        intro e he
        simp only [List.mem_cons, List.not_mem_nil, or_false] at he
        rcases he with rfl | rfl | rfl <;> exact ⟨_, rfl⟩)).trans rfl,
   (get_frame_anno_first_match exDS exFS "crash_001" 99 crashAnno exDSc
      [frameE1, frameE2, frameE3] rfl rfl (by
        intro e he
        simp only [List.mem_cons, List.not_mem_nil, or_false] at he
        rcases he with rfl | rfl | rfl <;> exact ⟨_, rfl⟩)).trans rfl⟩

/-- C8: when the annotation of an identifier loads successfully as a dict,
the crash-frame query returns the dict's 'crash_frame' value verbatim: the
not-found sentinel exactly when the field is absent (as for normal videos),
and the stored value itself when present (as for crash videos). -/
theorem get_crash_frame_verbatim (ds : TCASDataset) (fs : FileSystem)
    (vid : String) (flds : List (String × Json)) (ds' : TCASDataset)
    (h : ds.load_anno fs vid = (.ok (.obj flds), ds')) :
    ds.get_crash_frame fs vid = (.ok (flds.lookup "crash_frame"), ds') ∧
    (flds.lookup "crash_frame" = none →
      ds.get_crash_frame fs vid = (.ok none, ds')) ∧
    (∀ v, flds.lookup "crash_frame" = some v →
      ds.get_crash_frame fs vid = (.ok (some v), ds')) := by
  have hmain : ds.get_crash_frame fs vid = (.ok (flds.lookup "crash_frame"), ds') := by
    simp only [TCASDataset.get_crash_frame, h, Json.pyGet]
  exact ⟨hmain, fun hnone => by rw [hmain, hnone], fun v hv => by rw [hmain, hv]⟩

/-- C8 witness: the crash fixture annotation yields its stored crash frame
42 verbatim; the normal fixture annotation lacks the field and yields the
sentinel. -/
theorem get_crash_frame_verbatim_witness :
    exDS.load_anno exFS "crash_001" = (.ok crashAnno, exDSc) ∧
    exDS.get_crash_frame exFS "crash_001" = (.ok (some (Json.num 42)), exDSc) ∧
    exDS.load_anno exFS "normal_001" = (.ok normalAnno, exDS1) ∧
    exDS.get_crash_frame exFS "normal_001" = (.ok none, exDS1) :=
  ⟨rfl,
   (get_crash_frame_verbatim exDS exFS "crash_001"
      [("category", Json.str "crash"), ("crash_frame", Json.num 42),
       ("frames", Json.arr [frameE1, frameE2, frameE3])] exDSc rfl).2.2
     (Json.num 42) rfl,
   rfl,
   (get_crash_frame_verbatim exDS exFS "normal_001"
      [("category", Json.str "normal")] exDS1 rfl).2.1 rfl⟩

/-- C9: for a positive frame rate the time-to-accident function returns the
exact value (crash_frame - current_frame) / fps, which is negative exactly
when the current frame is past the crash frame; at (100, 70, 10) it is 3 and
at (100, 130, 10) it is -3. -/
theorem compute_time_to_accident_spec (crash_frame current_frame fps : Int)
    (hfps : 0 < fps) :
    compute_time_to_accident crash_frame current_frame fps
      = ((crash_frame - current_frame : Int) : Rat) / (fps : Rat) ∧
    (compute_time_to_accident crash_frame current_frame fps < 0 ↔
      crash_frame < current_frame) ∧
    compute_time_to_accident 100 70 10 = 3 ∧
    compute_time_to_accident 100 130 10 = -3 := by
  have hf : (0 : Rat) < (fps : Rat) := by exact_mod_cast hfps
  refine ⟨by push_cast [compute_time_to_accident]; ring, ?_,
    by norm_num [compute_time_to_accident],
    by norm_num [compute_time_to_accident]⟩
  unfold compute_time_to_accident
  rw [div_neg_iff]
  constructor
  · rintro (⟨h1, h2⟩ | ⟨h1, h2⟩)
    · exact absurd h2 (by linarith)
    · have hsub : (crash_frame : Rat) < (current_frame : Rat) := sub_neg.mp h1
      exact_mod_cast hsub
  · intro hlt
    refine Or.inr ⟨?_, hf⟩
    rw [sub_neg]
    exact_mod_cast hlt

/-- C9 witness: the theorem applied at crash frame 100, current frame 130,
10 frames per second. -/
theorem compute_time_to_accident_spec_witness :
    (0 : Int) < 10 ∧
    (compute_time_to_accident 100 130 10
       = ((100 - 130 : Int) : Rat) / ((10 : Int) : Rat) ∧
     (compute_time_to_accident 100 130 10 < 0 ↔ (100 : Int) < 130) ∧
     compute_time_to_accident 100 70 10 = 3 ∧
     compute_time_to_accident 100 130 10 = -3) :=
  ⟨by norm_num, compute_time_to_accident_spec 100 130 10 (by norm_num)⟩

theorem get_frame_anno_state (ds : TCASDataset) (fs : FileSystem)
    (vid : String) (fid : Int) :
    (ds.get_frame_anno fs vid fid).2 = (ds.load_anno fs vid).2 := by
  cases hl : ds.load_anno fs vid with
  | mk res ds1 =>
    cases res with
    | error e => simp [TCASDataset.get_frame_anno, hl]
    | ok value =>
      simp only [TCASDataset.get_frame_anno, hl]
      split <;> rfl

theorem is_crash_video_state (ds : TCASDataset) (fs : FileSystem)
    (vid : String) :
    (ds.is_crash_video fs vid).2 = (ds.load_anno fs vid).2 := by
  cases hl : ds.load_anno fs vid with
  | mk res ds1 =>
    cases res with
    | error e => simp [TCASDataset.is_crash_video, hl]
    | ok value =>
      simp only [TCASDataset.is_crash_video, hl]
      split <;> rfl

theorem get_crash_frame_state (ds : TCASDataset) (fs : FileSystem)
    (vid : String) :
    (ds.get_crash_frame fs vid).2 = (ds.load_anno fs vid).2 := by
  cases hl : ds.load_anno fs vid with
  | mk res ds1 =>
    cases res with
    | error e => simp [TCASDataset.get_crash_frame, hl]
    | ok value =>
      simp only [TCASDataset.get_crash_frame, hl]
      split <;> rfl

theorem getitem_state (ds : TCASDataset) (fs : FileSystem) (idx : Int) :
    (ds.getitem fs idx).2 = ds ∨
      ∃ v, (ds.getitem fs idx).2 = (ds.load_anno fs v).2 := by
  cases hp : pyListGet ds.video_ids idx with
  | error e => exact Or.inl (by simp [TCASDataset.getitem, hp])
  | ok vid =>
    cases hv : ds.load_video_frames fs vid with
    | error e2 => exact Or.inl (by simp [TCASDataset.getitem, hp, hv])
    | ok frames =>
      cases hl : ds.load_anno fs vid with
      | mk res ds1 =>
        refine Or.inr ⟨vid, ?_⟩
        rw [hl]
        cases res <;> simp [TCASDataset.getitem, hp, hv, hl]

/-- C10: no operation mutates the constructor-set state — root directory,
split name, identifier list, transform — and the annotation cache only ever
grows, by entries prepended during annotation loading; the remaining
operations (size query, video-frame loading, statistics query) are embedded
as pure functions of the dataset because they touch no instance state at
all. -/
theorem dataset_state_invariants (ds : TCASDataset) (fs : FileSystem)
    (vid : String) (idx fid : Int) :
    preservesCore ds (ds.getitem fs idx).2 ∧
    preservesCore ds (ds.load_anno fs vid).2 ∧
    preservesCore ds (ds.get_frame_anno fs vid fid).2 ∧
    preservesCore ds (ds.is_crash_video fs vid).2 ∧
    preservesCore ds (ds.get_crash_frame fs vid).2 := by
  have hA := load_anno_preserves ds fs vid
  refine ⟨?_, hA, ?_, ?_, ?_⟩
  · rcases getitem_state ds fs idx with he | ⟨v, he⟩
    · rw [he]; exact preservesCore_refl ds
    · rw [he]; exact load_anno_preserves ds fs v
  · rw [get_frame_anno_state]; exact hA
  · rw [is_crash_video_state]; exact hA
  · rw [get_crash_frame_state]; exact hA

end TCAS
